import Mathlib

/-! Shallow embedding of the Kubernetes-backed Pod/Deployment orchestration
controller of `jina/peapods/pods/k8s.py`: the deployment-handle wait loops
(`wait_start_success`, `wait_restart_success`, `wait_scale_success`), the
argument partitioner (`_parse_deployment_args`), and the pod-level fan-out
operations (`wait_start_success`, `rolling_update`, `scale`).

The platform API is modelled as a trace of poll results: each poll either
returns an observed deployment status (plus, for the restart wait, the list
of currently-live pod UIDs) or raises an `ApiException`.  A wait loop
consumes the trace until it succeeds, hits an API error, or exhausts the
trace (the deadline elapsing). -/

/-- Observed `status` sub-object of a Kubernetes deployment, as read by the
wait loops (`api_response.status`).  Each counter may be `None`. -/
structure DeploymentStatus where
  ready_replicas : Option Nat
  updated_replicas : Option Nat
  replicas : Option Nat
deriving DecidableEq

/-- One poll of the platform API: either an observation or an
`ApiException` carrying an error description. -/
inductive PollResult (α : Type) where
  | obs (a : α)
  | apiError (e : String)
deriving DecidableEq

/-- Result of a blocking wait: success, or a raised `RuntimeFailToStart`
carrying its message. -/
inductive WaitOutcome where
  | success
  | failure (msg : String)
deriving DecidableEq

namespace _K8sDeployment

/-- Embeds `_K8sDeployment._has_pod_with_uid`: whether any UID of `uids`
occurs among the deployment's current pod UIDs. -/
def _has_pod_with_uid (current_pods_uids : List String) (uids : List String) : Bool :=
  uids.any (fun uid => current_pods_uids.contains uid)

/-- Ready condition of `_K8sDeployment.wait_start_success`:
`ready_replicas is not None and ready_replicas == num_replicas`. -/
def wait_start_check (num_replicas : Nat) (st : DeploymentStatus) : Bool :=
  st.ready_replicas.isSome && st.ready_replicas == some num_replicas

/-- Message of the `RuntimeFailToStart` raised by
`_K8sDeployment.wait_start_success`, with the wrapped API error appended
when one was caught. -/
def startFailMsg (name : String) (timeout_ready : Int) (err : Option String) : String :=
  " Deployment " ++ name ++ " did not start with a timeout of " ++ toString timeout_ready ++
    (match err with
     | none => ""
     | some e => ": " ++ e)

/-- Embeds the polling loop of `_K8sDeployment.wait_start_success` over a
trace of poll results: return on the ready condition, abort at once on an
`ApiException`, raise the timeout failure when the trace (deadline) is
exhausted. -/
def wait_start_success (name : String) (timeout_ready : Int) (num_replicas : Nat) :
    List (PollResult DeploymentStatus) → WaitOutcome
  | [] => WaitOutcome.failure (startFailMsg name timeout_ready none)
  | PollResult.apiError e :: _ => WaitOutcome.failure (startFailMsg name timeout_ready (some e))
  | PollResult.obs st :: rest =>
      if wait_start_check num_replicas st then WaitOutcome.success
      else wait_start_success name timeout_ready num_replicas rest

/-- Ready condition of `_K8sDeployment.wait_restart_success`:
`updated_replicas is not None and updated_replicas == num_replicas and
replicas == num_replicas and not has_pod_with_uid`. -/
def wait_restart_check (num_replicas : Nat) (previous_uids : List String)
    (st : DeploymentStatus) (current_pods_uids : List String) : Bool :=
  st.updated_replicas.isSome
    && st.updated_replicas == some num_replicas
    && st.replicas == some num_replicas
    && !(_has_pod_with_uid current_pods_uids previous_uids)

/-- Message of the `RuntimeFailToStart` raised by
`_K8sDeployment.wait_restart_success`. -/
def restartFailMsg (name : String) (timeout_ready : Int) (err : Option String) : String :=
  " Deployment " ++ name ++ " did not restart with a timeout of " ++ toString timeout_ready ++
    (match err with
     | none => ""
     | some e => ": " ++ e)

/-- Embeds the polling loop of `_K8sDeployment.wait_restart_success`: each
observation carries the deployment status together with the currently-live
pod UIDs (as read by `_has_pod_with_uid`). -/
def wait_restart_success (name : String) (timeout_ready : Int) (num_replicas : Nat)
    (previous_uids : List String) :
    List (PollResult (DeploymentStatus × List String)) → WaitOutcome
  | [] => WaitOutcome.failure (restartFailMsg name timeout_ready none)
  | PollResult.apiError e :: _ => WaitOutcome.failure (restartFailMsg name timeout_ready (some e))
  | PollResult.obs (st, uids) :: rest =>
      if wait_restart_check num_replicas previous_uids st uids then WaitOutcome.success
      else wait_restart_success name timeout_ready num_replicas previous_uids rest

/-- Ready condition of `_K8sDeployment.wait_scale_success`:
`ready_replicas is not None and ready_replicas == scale_to`. -/
def wait_scale_check (scale_to : Nat) (st : DeploymentStatus) : Bool :=
  st.ready_replicas.isSome && st.ready_replicas == some scale_to

/-- Message of the `RuntimeFailToStart` raised by
`_K8sDeployment.wait_scale_success` (the source reuses the wording
"did not restart" there). -/
def scaleFailMsg (name : String) (timeout_ready : Int) (err : Option String) : String :=
  " Deployment " ++ name ++ " did not restart with a timeout of " ++ toString timeout_ready ++
    (match err with
     | none => ""
     | some e => ": " ++ e)

/-- Embeds the polling loop of `_K8sDeployment.wait_scale_success`. -/
def wait_scale_success (name : String) (timeout_ready : Int) (scale_to : Nat) :
    List (PollResult DeploymentStatus) → WaitOutcome
  | [] => WaitOutcome.failure (scaleFailMsg name timeout_ready none)
  | PollResult.apiError e :: _ => WaitOutcome.failure (scaleFailMsg name timeout_ready (some e))
  | PollResult.obs st :: rest =>
      if wait_scale_check scale_to st then WaitOutcome.success
      else wait_scale_success name timeout_ready scale_to rest

end _K8sDeployment

/-- The `PeaRoleType` enum values referenced by the partitioner
(`jina.enums.PeaRoleType`); `SINGLETON` stands for any value the incoming
arguments may already carry. -/
inductive PeaRoleType where
  | SINGLETON
  | HEAD
  | GATEWAY
deriving DecidableEq

/-- Modelled from the spec: the fixed well-known head-in port
`K8sGrpcConnectionPool.K8S_PORT_IN` (the networking module is outside the
embedded sources; only the constant's existence matters, never its value). -/
def K8S_PORT_IN : Nat := 8081

/-- Modelled from the spec: the fixed uses-before port
`K8sGrpcConnectionPool.K8S_PORT_USES_BEFORE` (networking module outside the
embedded sources). -/
def K8S_PORT_USES_BEFORE : Nat := 8082

/-- Modelled from the spec: the fixed uses-after port
`K8sGrpcConnectionPool.K8S_PORT_USES_AFTER` (networking module outside the
embedded sources). -/
def K8S_PORT_USES_AFTER : Nat := 8083

/-- The argument namespace consumed and produced by
`K8sPod._parse_deployment_args`: the fields that function reads or writes.
`uses_before`/`uses_after` model the Python attributes with `none` for a
falsy value. -/
structure PodArgs where
  name : String
  shards : Nat
  replicas : Nat
  uses_before : Option String
  uses_after : Option String
  k8s_connection_pool : Bool
  k8s_namespace : String
  runtime_cls : String
  pea_role : PeaRoleType
  port_in : Nat
  shard_id : Option Nat
  connection_list : Option String
  uses_before_address : Option String
  uses_after_address : Option String
deriving DecidableEq

/-- Result dictionary of `K8sPod._parse_deployment_args`:
`{'head_deployment': ..., 'deployments': [...]}`. -/
structure ParsedDeploymentArgs where
  head_deployment : Option PodArgs
  deployments : List PodArgs
deriving DecidableEq

namespace K8sPod

/-- Embeds the `connection_list` string built by
`K8sPod._parse_deployment_args` when the connection pool is disabled: a
brace-delimited table with one entry per shard, each entry ending in a
comma, the final comma stripped before the closing brace. -/
def connectionListEntry (pod_name ns : String) (shards i : Nat) : String :=
  "\x22" ++ toString i ++ "\x22: \x22" ++
    (if shards > 1 then pod_name ++ "-" ++ toString i else pod_name) ++
    "." ++ ns ++ ".svc:" ++ toString K8S_PORT_IN ++ "\x22,"

/-- Full `connection_list` string of `K8sPod._parse_deployment_args`. -/
def buildConnectionList (pod_name ns : String) (shards : Nat) : String :=
  let s := "\x7b" ++ String.join ((List.range shards).map (connectionListEntry pod_name ns shards))
  s.dropRight 1 ++ "\x7d"

/-- Embeds `K8sPod._parse_deployment_args`.  Partial: assigning the
uses-before/uses-after loopback address dereferences the head-deployment
slot, which is `None` for a gateway pod (an `AttributeError` in the
source), modelled as `none`. -/
def _parse_deployment_args (args : PodArgs) : Option ParsedDeploymentArgs :=
  let shards := args.shards
  let head0 : Option PodArgs :=
    if args.name ≠ "gateway" then
      let h : PodArgs :=
        { args with
            replicas := 1
            runtime_cls := "HeadRuntime"
            pea_role := PeaRoleType.HEAD
            port_in := K8S_PORT_IN }
      if !args.k8s_connection_pool then
        some { h with connection_list := some (buildConnectionList args.name args.k8s_namespace shards) }
      else
        some h
    else
      none
  let step1 : Option (Option PodArgs) :=
    if args.uses_before.isSome then
      match head0 with
      | none => none
      | some h =>
          some (some { h with uses_before_address := some ("127.0.0.1:" ++ toString K8S_PORT_USES_BEFORE) })
    else
      some head0
  match step1 with
  | none => none
  | some head1 =>
    let step2 : Option (Option PodArgs) :=
      if args.uses_after.isSome then
        match head1 with
        | none => none
        | some h =>
            some (some { h with uses_after_address := some ("127.0.0.1:" ++ toString K8S_PORT_USES_AFTER) })
      else
        some head1
    match step2 with
    | none => none
    | some head2 =>
      let deployments := (List.range shards).map (fun i =>
        { args with
            shard_id := some i
            uses_before := none
            uses_after := none
            port_in := K8S_PORT_IN
            pea_role := if args.name = "gateway" then PeaRoleType.GATEWAY else args.pea_role })
      some { head_deployment := head2, deployments := deployments }

end K8sPod

/-- Identity of a deployment handle owned by the pod controller: the head
deployment or the worker deployment of one shard. -/
inductive HandleId where
  | head
  | worker (i : Nat)
deriving DecidableEq

/-- Observable action of the pod controller on one of its handles. -/
inductive PodEvent where
  | waitHandle (h : HandleId)
  | deleteHandle (h : HandleId)
deriving DecidableEq

/-- Result of a pod-level operation: normal return, a raised `ValueError`,
or a re-raised wait failure. -/
inductive PodResult where
  | ok
  | valueError (msg : String)
  | failed (msg : String)
deriving DecidableEq

/-- Order in which `K8sPod.wait_start_success` waits on its handles: the
head deployment first (when present), then the workers in shard order. -/
def handleOrder (hasHead : Bool) (numWorkers : Nat) : List HandleId :=
  (if hasHead then [HandleId.head] else []) ++ (List.range numWorkers).map HandleId.worker

/-- Modelled from the spec: `BasePod.close` (the generic pod base class is
outside the embedded sources) deletes the head handle, if present, then
all worker handles. -/
def podClose (hasHead : Bool) (numWorkers : Nat) : List PodEvent :=
  (handleOrder hasHead numWorkers).map PodEvent.deleteHandle

/-- Sequentially wait on each handle in order; stop at the first failing
wait, returning its message and the wait events performed so far. -/
def waitHandles (waitRes : HandleId → WaitOutcome) :
    List HandleId → Option String × List PodEvent
  | [] => (none, [])
  | h :: rest =>
    match waitRes h with
    | WaitOutcome.success =>
        let r := waitHandles waitRes rest
        (r.1, PodEvent.waitHandle h :: r.2)
    | WaitOutcome.failure m => (some m, [PodEvent.waitHandle h])

namespace K8sPod

/-- Embeds `K8sPod.wait_start_success`: raise a `ValueError` unless
`noblock_on_start` is set; otherwise wait on the head handle (if any) and
then every worker handle, and on any wait failure delete every handle via
`close()` and re-raise.  `waitRes` gives the environment-determined
outcome of each handle's wait; the returned event list records the waits
and deletions performed. -/
def wait_start_success (noblock_on_start hasHead : Bool) (numWorkers : Nat)
    (waitRes : HandleId → WaitOutcome) : PodResult × List PodEvent :=
  if noblock_on_start = false then
    (PodResult.valueError
      "wait_start_success should only be called when noblock_on_start is set to True", [])
  else
    match waitHandles waitRes (handleOrder hasHead numWorkers) with
    | (none, evs) => (PodResult.ok, evs)
    | (some m, evs) => (PodResult.failed m, evs ++ podClose hasHead numWorkers)

end K8sPod

/-- Observable action of `K8sPod.rolling_update` on worker `i`: capturing
its current pod UIDs, issuing the replace (`_K8sDeployment.rolling_update`
/ `_restart_runtime`), or awaiting its `wait_restart_success` with the
recorded UID snapshot. -/
inductive RUEvent where
  | captureUids (i : Nat) (uids : List String)
  | replace (i : Nat)
  | waitRestart (i : Nat) (previous_uids : List String)
deriving DecidableEq

/-- First loop of `K8sPod.rolling_update`: for each worker in shard order,
capture its pod UIDs (`get_pod_uids`, given by the environment `g`) and
immediately issue its replace. -/
def ruReplacePhase (g : Nat → List String) : Nat → List RUEvent
  | 0 => []
  | n + 1 => ruReplacePhase g n ++ [RUEvent.captureUids n (g n), RUEvent.replace n]

/-- Second loop of `K8sPod.rolling_update`: await each worker's
`wait_restart_success` with the snapshot captured for that worker, in
order, stopping at the first failure (whose raised message propagates). -/
def ruWaitPhase (g : Nat → List String) (w : Nat → List String → WaitOutcome) :
    List Nat → Option String × List RUEvent
  | [] => (none, [])
  | i :: rest =>
    match w i (g i) with
    | WaitOutcome.success =>
        let r := ruWaitPhase g w rest
        (r.1, RUEvent.waitRestart i (g i) :: r.2)
    | WaitOutcome.failure m => (some m, [RUEvent.waitRestart i (g i)])

namespace K8sPod

/-- Embeds `K8sPod.rolling_update` over `n` workers: capture-and-replace
every worker first, then await every worker's restart in order.  `g i`
is the UID snapshot `get_pod_uids()` returns for worker `i`; `w i uids`
is the outcome of worker `i`'s `wait_restart_success uids`. -/
def rolling_update (g : Nat → List String) (n : Nat)
    (w : Nat → List String → WaitOutcome) : PodResult × List RUEvent :=
  let p := ruWaitPhase g w (List.range n)
  (match p.1 with
   | none => PodResult.ok
   | some m => PodResult.failed m,
   ruReplacePhase g n ++ p.2)

end K8sPod

/-- Observable action of `K8sPod.scale` on a handle: issuing the scale
patch (`_K8sDeployment.scale`) or awaiting `wait_scale_success`. -/
inductive ScaleEvent where
  | scaleCall (h : HandleId)
  | waitScaled (h : HandleId)
deriving DecidableEq

/-- Replica counts recorded by the pod controller's handles:
`num_replicas` of the head handle (when present) and of each worker. -/
structure PodReplicaState where
  head_num_replicas : Option Nat
  worker_num_replicas : List Nat
deriving DecidableEq

/-- Second loop of `K8sPod.scale`: await each worker's scale wait in
order; after a successful wait set that worker's recorded `num_replicas`
to the target; stop at the first failure. -/
def scaleWaitPhase (target : Nat) (w : Nat → WaitOutcome) :
    List Nat → List Nat → Option String × List ScaleEvent × List Nat
  | [], reps => (none, [], reps)
  | i :: rest, reps =>
    match w i with
    | WaitOutcome.success =>
        let r := scaleWaitPhase target w rest (reps.set i target)
        (r.1, ScaleEvent.waitScaled (HandleId.worker i) :: r.2.1, r.2.2)
    | WaitOutcome.failure m => (some m, [ScaleEvent.waitScaled (HandleId.worker i)], reps)

namespace K8sPod

/-- Embeds `K8sPod.scale`: issue the scale patch on every worker handle,
then await every worker's `wait_scale_success` in order, recording the
target replica count per worker after its wait succeeds.  The head handle
is not involved. -/
def scale (st : PodReplicaState) (target : Nat) (w : Nat → WaitOutcome) :
    PodResult × List ScaleEvent × PodReplicaState :=
  let n := st.worker_num_replicas.length
  let p1 := (List.range n).map (fun i => ScaleEvent.scaleCall (HandleId.worker i))
  let r := scaleWaitPhase target w (List.range n) st.worker_num_replicas
  (match r.1 with
   | none => PodResult.ok
   | some m => PodResult.failed m,
   p1 ++ r.2.1,
   { st with worker_num_replicas := r.2.2 })

end K8sPod

/-- Head-deployment namespace produced by `K8sPod._parse_deployment_args`
for a non-gateway pod: the base copy with replicas forced to 1, head
runtime and role, the head-in port, plus the connection list and the
uses-before/uses-after loopback addresses when configured. -/
def headDeploymentFor (args : PodArgs) : PodArgs :=
  let h0 : PodArgs :=
    { args with
        replicas := 1
        runtime_cls := "HeadRuntime"
        pea_role := PeaRoleType.HEAD
        port_in := K8S_PORT_IN }
  let h1 := if !args.k8s_connection_pool then
      { h0 with
          connection_list :=
            some (K8sPod.buildConnectionList args.name args.k8s_namespace args.shards) }
    else h0
  let h2 := if args.uses_before.isSome then
      { h1 with uses_before_address := some ("127.0.0.1:" ++ toString K8S_PORT_USES_BEFORE) }
    else h1
  if args.uses_after.isSome then
    { h2 with uses_after_address := some ("127.0.0.1:" ++ toString K8S_PORT_USES_AFTER) }
  else h2

/-- Worker namespaces produced by `K8sPod._parse_deployment_args`: one
deep copy per shard with its shard id, cleared pre/post-processing
executors and the head-in port. -/
def workerDeploymentsFor (args : PodArgs) : List PodArgs :=
  (List.range args.shards).map (fun i =>
    { args with
        shard_id := some i
        uses_before := none
        uses_after := none
        port_in := K8S_PORT_IN
        pea_role := if args.name = "gateway" then PeaRoleType.GATEWAY else args.pea_role })

/-- Example non-gateway arguments: pod `enc`, two shards, three replicas,
connection pool disabled, namespace `ns`. -/
def encArgsEx : PodArgs :=
  { name := "enc", shards := 2, replicas := 3, uses_before := none, uses_after := none,
    k8s_connection_pool := false, k8s_namespace := "ns", runtime_cls := "WorkerRuntime",
    pea_role := PeaRoleType.SINGLETON, port_in := 0, shard_id := none,
    connection_list := none, uses_before_address := none, uses_after_address := none }

/-- Environment for the C2 witness: the wait on worker 1 fails, every
other wait succeeds. -/
def waitResEx : HandleId → WaitOutcome
  | HandleId.worker 1 => WaitOutcome.failure "boom"
  | _ => WaitOutcome.success

/-- Claim C1: the deployment handle's wait-restarted operation returns
success only when some observed state has `updated_replicas` not `None`
and equal to the desired count, total `replicas` equal to the desired
count, and no currently-live pod UID in the snapshot `previous_uids`;
and a state with all counts matching but a snapshot UID still live is
reported not-ready, the loop continuing with the rest of the trace. -/
theorem C1_wait_restart_success_condition (name : String) (t : Int) (num : Nat)
    (prev : List String) (st : DeploymentStatus) (uids : List String)
    (hlive : _K8sDeployment._has_pod_with_uid uids prev = true) :
    (∀ trace, _K8sDeployment.wait_restart_success name t num prev trace = WaitOutcome.success →
       ∃ st' uids', PollResult.obs (st', uids') ∈ trace ∧
         st'.updated_replicas = some num ∧ st'.replicas = some num ∧
         _K8sDeployment._has_pod_with_uid uids' prev = false) ∧
    ∀ rest, _K8sDeployment.wait_restart_success name t num prev
        (PollResult.obs (st, uids) :: rest) =
      _K8sDeployment.wait_restart_success name t num prev rest := by
  constructor
  · intro trace
    induction trace with
    | nil => intro h; simp [_K8sDeployment.wait_restart_success] at h
    | cons p rest ih =>
      cases p with
      | apiError e => intro h; simp [_K8sDeployment.wait_restart_success] at h
      | obs a =>
        obtain ⟨st', uids'⟩ := a
        intro h
        simp only [_K8sDeployment.wait_restart_success] at h
        split at h
        · rename_i hc
          simp only [_K8sDeployment.wait_restart_check, Bool.and_eq_true, beq_iff_eq,
            Bool.not_eq_true'] at hc
          exact ⟨st', uids', List.mem_cons_self _ _, hc.1.1.2, hc.1.2, hc.2⟩
        · obtain ⟨s2, u2, hmem, h1, h2, h3⟩ := ih h
          exact ⟨s2, u2, List.mem_cons_of_mem _ hmem, h1, h2, h3⟩
  · intro rest
    simp [_K8sDeployment.wait_restart_success, _K8sDeployment.wait_restart_check, hlive]

/-- Witness for C1: with desired = 3, an observation with
`updated_replicas = 3`, `replicas = 3` but snapshot UID `u1` still live is
not ready, the loop continuing exactly as on the remaining trace. -/
theorem C1_wait_restart_success_condition_witness :
    _K8sDeployment._has_pod_with_uid ["u1", "u2"] ["u1"] = true ∧
    _K8sDeployment.wait_restart_success "d" 2000 3 ["u1"]
        [PollResult.obs (⟨some 3, some 3, some 3⟩, ["u1", "u2"])] =
      _K8sDeployment.wait_restart_success "d" 2000 3 ["u1"] [] :=
  ⟨by decide,
   (C1_wait_restart_success_condition "d" 2000 3 ["u1"] ⟨some 3, some 3, some 3⟩
      ["u1", "u2"] (by decide)).2 []⟩

/-- Counterexample to the C8 wording that the timeout failure carries the
last observed counts: two runs whose last observed ready-replica counts
differ (2 vs 0) raise the identical failure, whose message names only the
deployment and the configured timeout. -/
theorem C8_timeout_message_counterexample :
    _K8sDeployment.wait_start_success "d" 2000 3
        [PollResult.obs ⟨some 2, none, some 2⟩] =
      _K8sDeployment.wait_start_success "d" 2000 3
        [PollResult.obs ⟨some 0, none, some 0⟩] ∧
    (⟨some 2, none, some 2⟩ : DeploymentStatus) ≠ ⟨some 0, none, some 0⟩ ∧
    _K8sDeployment.wait_start_success "d" 2000 3
        [PollResult.obs ⟨some 2, none, some 2⟩] =
      WaitOutcome.failure " Deployment d did not start with a timeout of 2000" := by
  refine ⟨rfl, by decide, rfl⟩

/-- Claim C8 (amended): each wait operation raises a failure exactly on
deadline exhaustion without the condition holding, or on a platform API
error; the timeout failure's message names the deployment and the
configured timeout (not the observed counts), and an API error aborts the
loop at once — the outcome ignores the remaining trace — wrapping the
error into the raised failure. -/
theorem C8_wait_failure_classification (name : String) (t : Int) (num scale_to : Nat)
    (prev : List String) (e : String) :
    (_K8sDeployment.wait_start_success name t num [] =
        WaitOutcome.failure (_K8sDeployment.startFailMsg name t none)) ∧
    (_K8sDeployment.wait_restart_success name t num prev [] =
        WaitOutcome.failure (_K8sDeployment.restartFailMsg name t none)) ∧
    (_K8sDeployment.wait_scale_success name t scale_to [] =
        WaitOutcome.failure (_K8sDeployment.scaleFailMsg name t none)) ∧
    (∀ rest, _K8sDeployment.wait_start_success name t num (PollResult.apiError e :: rest) =
        WaitOutcome.failure (_K8sDeployment.startFailMsg name t (some e))) ∧
    (∀ rest, _K8sDeployment.wait_restart_success name t num prev
        (PollResult.apiError e :: rest) =
        WaitOutcome.failure (_K8sDeployment.restartFailMsg name t (some e))) ∧
    (∀ rest, _K8sDeployment.wait_scale_success name t scale_to
        (PollResult.apiError e :: rest) =
        WaitOutcome.failure (_K8sDeployment.scaleFailMsg name t (some e))) ∧
    (∀ trace, _K8sDeployment.wait_start_success name t num trace = WaitOutcome.success →
        ∃ st, PollResult.obs st ∈ trace ∧ _K8sDeployment.wait_start_check num st = true) ∧
    (∀ trace, _K8sDeployment.wait_scale_success name t scale_to trace = WaitOutcome.success →
        ∃ st, PollResult.obs st ∈ trace ∧ _K8sDeployment.wait_scale_check scale_to st = true) := by
  refine ⟨rfl, rfl, rfl, fun _ => rfl, fun _ => rfl, fun _ => rfl, ?_, ?_⟩
  · intro trace
    induction trace with
    | nil => intro h; simp [_K8sDeployment.wait_start_success] at h
    | cons p rest ih =>
      cases p with
      | apiError e2 => intro h; simp [_K8sDeployment.wait_start_success] at h
      | obs st =>
        intro h
        simp only [_K8sDeployment.wait_start_success] at h
        split at h
        · rename_i hc
          exact ⟨st, List.mem_cons_self _ _, hc⟩
        · obtain ⟨s2, hmem, hc⟩ := ih h
          exact ⟨s2, List.mem_cons_of_mem _ hmem, hc⟩
  · intro trace
    induction trace with
    | nil => intro h; simp [_K8sDeployment.wait_scale_success] at h
    | cons p rest ih =>
      cases p with
      | apiError e2 => intro h; simp [_K8sDeployment.wait_scale_success] at h
      | obs st =>
        intro h
        simp only [_K8sDeployment.wait_scale_success] at h
        split at h
        · rename_i hc
          exact ⟨st, List.mem_cons_self _ _, hc⟩
        · obtain ⟨s2, hmem, hc⟩ := ih h
          exact ⟨s2, List.mem_cons_of_mem _ hmem, hc⟩

/-- Claim C10: calling the pod controller's wait-for-start with
`noblock_on_start` false raises a `ValueError` at once: no handle is
waited on, no platform call is made and nothing is deleted (the event
list is empty). -/
theorem C10_wait_start_value_error (hasHead : Bool) (numWorkers : Nat)
    (waitRes : HandleId → WaitOutcome) :
    K8sPod.wait_start_success false hasHead numWorkers waitRes =
      (PodResult.valueError
        "wait_start_success should only be called when noblock_on_start is set to True",
       []) := rfl

/-- The sequential wait over a handle list reports no failure exactly when
every handle's wait succeeds. -/
theorem waitHandles_none_iff (w : HandleId → WaitOutcome) (l : List HandleId) :
    (waitHandles w l).1 = none ↔ ∀ h ∈ l, w h = WaitOutcome.success := by
  induction l with
  | nil => simp [waitHandles]
  | cons h rest ih =>
    cases hw : w h with
    | success => simp [waitHandles, hw, List.forall_mem_cons, ih]
    | failure m => simp [waitHandles, hw, List.forall_mem_cons]

/-- Shape of `K8sPod.wait_start_success` when the sequential wait reports
a failure message `m`: the failure is re-raised after `close()` deleted
every handle. -/
theorem K8sPod_wait_start_fail_eq (hasHead : Bool) (n : Nat)
    (w : HandleId → WaitOutcome) (m : String)
    (hm : (waitHandles w (handleOrder hasHead n)).1 = some m) :
    K8sPod.wait_start_success true hasHead n w =
      (PodResult.failed m,
       (waitHandles w (handleOrder hasHead n)).2 ++ podClose hasHead n) := by
  unfold K8sPod.wait_start_success
  rw [show waitHandles w (handleOrder hasHead n) =
      (some m, (waitHandles w (handleOrder hasHead n)).2) from by rw [← hm]]
  rfl

/-- Claim C2: if any handle's readiness wait fails during the blocking
wait that completes a fresh start, the controller deletes every handle it
created — the head, when present, and every worker — and surfaces the
failure; the caller never observes the half-started pod as success. -/
theorem C2_partial_start_cleanup (hasHead : Bool) (n : Nat)
    (w : HandleId → WaitOutcome) (h0 : HandleId) (m0 : String)
    (hmem : h0 ∈ handleOrder hasHead n) (hfail : w h0 = WaitOutcome.failure m0) :
    (∃ m, (K8sPod.wait_start_success true hasHead n w).1 = PodResult.failed m) ∧
    (∀ h ∈ handleOrder hasHead n,
       PodEvent.deleteHandle h ∈ (K8sPod.wait_start_success true hasHead n w).2) ∧
    (K8sPod.wait_start_success true hasHead n w).1 ≠ PodResult.ok := by
  have hne : (waitHandles w (handleOrder hasHead n)).1 ≠ none := by
    rw [Ne, waitHandles_none_iff]
    intro hall
    have hsucc := hall h0 hmem
    rw [hfail] at hsucc
    exact absurd hsucc (by simp)
  obtain ⟨m, hm⟩ : ∃ m, (waitHandles w (handleOrder hasHead n)).1 = some m := by
    cases hval : (waitHandles w (handleOrder hasHead n)).1 with
    | none => exact absurd hval hne
    | some m => exact ⟨m, rfl⟩
  rw [K8sPod_wait_start_fail_eq hasHead n w m hm]
  refine ⟨⟨m, rfl⟩, ?_, by simp⟩
  intro h hh
  exact List.mem_append_right _ (List.mem_map_of_mem PodEvent.deleteHandle hh)

/-- Witness for C2: with a head and two workers whose second wait fails,
the result is not success, and head and both workers are all deleted. -/
theorem C2_partial_start_cleanup_witness :
    (K8sPod.wait_start_success true true 2 waitResEx).1 ≠ PodResult.ok ∧
    PodEvent.deleteHandle HandleId.head ∈
      (K8sPod.wait_start_success true true 2 waitResEx).2 ∧
    PodEvent.deleteHandle (HandleId.worker 0) ∈
      (K8sPod.wait_start_success true true 2 waitResEx).2 ∧
    PodEvent.deleteHandle (HandleId.worker 1) ∈
      (K8sPod.wait_start_success true true 2 waitResEx).2 :=
  ⟨(C2_partial_start_cleanup true 2 waitResEx (HandleId.worker 1) "boom"
      (by decide) rfl).2.2,
   (C2_partial_start_cleanup true 2 waitResEx (HandleId.worker 1) "boom"
      (by decide) rfl).2.1 HandleId.head (by decide),
   (C2_partial_start_cleanup true 2 waitResEx (HandleId.worker 1) "boom"
      (by decide) rfl).2.1 (HandleId.worker 0) (by decide),
   (C2_partial_start_cleanup true 2 waitResEx (HandleId.worker 1) "boom"
      (by decide) rfl).2.1 (HandleId.worker 1) (by decide)⟩

/-- Splitting `List.range n` at an index `i < n`. -/
theorem range_split (i n : Nat) (h : i < n) :
    List.range n = List.range i ++ i :: List.range' (i + 1) (n - i - 1) := by
  obtain ⟨k, hk⟩ : ∃ k, n - i = k + 1 := ⟨n - i - 1, by omega⟩
  have hk2 : n - i - 1 = k := by omega
  have h1 : List.range' 0 i 1 ++ List.range' (0 + 1 * i) (n - i) 1 =
      List.range' 0 ((n - i) + i) 1 := List.range'_append 0 i (n - i) 1
  rw [Nat.zero_add, Nat.one_mul, show (n - i) + i = n by omega] at h1
  rw [List.range_eq_range', ← h1, ← List.range_eq_range', hk2, hk, List.range'_succ]

/-- When every listed worker's restart wait succeeds, the wait phase of the
rolling update reports no failure and awaits each worker in order. -/
theorem ruWaitPhase_all_success (g : Nat → List String)
    (w : Nat → List String → WaitOutcome) (l : List Nat)
    (hall : ∀ i ∈ l, w i (g i) = WaitOutcome.success) :
    ruWaitPhase g w l = (none, l.map (fun i => RUEvent.waitRestart i (g i))) := by
  induction l with
  | nil => rfl
  | cons i rest ih =>
    have hi : w i (g i) = WaitOutcome.success := hall i (List.mem_cons_self _ _)
    have hrest := ih (fun j hj => hall j (List.mem_cons_of_mem _ hj))
    simp [ruWaitPhase, hi, hrest]

/-- When the first failing wait in the list is worker `i`, the wait phase
stops right after awaiting `i` and reports `i`'s failure message. -/
theorem ruWaitPhase_first_fail (g : Nat → List String)
    (w : Nat → List String → WaitOutcome) (l1 : List Nat) (i : Nat) (l2 : List Nat)
    (m : String) (hall : ∀ j ∈ l1, w j (g j) = WaitOutcome.success)
    (hfail : w i (g i) = WaitOutcome.failure m) :
    ruWaitPhase g w (l1 ++ i :: l2) =
      (some m, l1.map (fun j => RUEvent.waitRestart j (g j)) ++
        [RUEvent.waitRestart i (g i)]) := by
  induction l1 with
  | nil => simp [ruWaitPhase, hfail]
  | cons j rest ih =>
    have hj : w j (g j) = WaitOutcome.success := hall j (List.mem_cons_self _ _)
    have hrest := ih (fun k hk => hall k (List.mem_cons_of_mem _ hk))
    simp [ruWaitPhase, hj, hrest]

/-- Every event the wait phase emits is a restart wait of a listed worker
with that worker's own UID snapshot. -/
theorem ruWaitPhase_mem (g : Nat → List String) (w : Nat → List String → WaitOutcome)
    (l : List Nat) :
    ∀ e ∈ (ruWaitPhase g w l).2, ∃ i, i ∈ l ∧ e = RUEvent.waitRestart i (g i) := by
  induction l with
  | nil => simp [ruWaitPhase]
  | cons i rest ih =>
    intro e he
    cases hw : w i (g i) with
    | success =>
      simp only [ruWaitPhase, hw] at he
      rcases List.mem_cons.mp he with he | he
      · exact ⟨i, List.mem_cons_self _ _, he⟩
      · obtain ⟨j, hj, hje⟩ := ih e he
        exact ⟨j, List.mem_cons_of_mem _ hj, hje⟩
    | failure m =>
      simp only [ruWaitPhase, hw, List.mem_singleton] at he
      exact ⟨i, List.mem_cons_self _ _, he⟩

/-- The capture-and-replace phase emits two events per worker. -/
theorem ruReplacePhase_length (g : Nat → List String) (n : Nat) :
    (ruReplacePhase g n).length = 2 * n := by
  induction n with
  | zero => rfl
  | succ k ih =>
    simp only [ruReplacePhase, List.length_append, ih, List.length_cons, List.length_nil]
    omega

/-- In the capture-and-replace phase, worker `i`'s UID capture sits at
position `2 i`, immediately followed by its replace. -/
theorem ruReplacePhase_getElem (g : Nat → List String) (n i : Nat) (h : i < n) :
    (ruReplacePhase g n)[2 * i]? = some (RUEvent.captureUids i (g i)) ∧
    (ruReplacePhase g n)[2 * i + 1]? = some (RUEvent.replace i) := by
  induction n with
  | zero => omega
  | succ k ih =>
    by_cases hik : i < k
    · obtain ⟨h1, h2⟩ := ih hik
      have hl1 : 2 * i < (ruReplacePhase g k).length := by
        rw [ruReplacePhase_length]; omega
      have hl2 : 2 * i + 1 < (ruReplacePhase g k).length := by
        rw [ruReplacePhase_length]; omega
      constructor
      · rw [ruReplacePhase, List.getElem?_append, if_pos hl1]; exact h1
      · rw [ruReplacePhase, List.getElem?_append, if_pos hl2]; exact h2
    · have hik' : i = k := by omega
      subst hik'
      constructor
      · rw [ruReplacePhase,
          List.getElem?_append_right (by rw [ruReplacePhase_length]; try omega),
          ruReplacePhase_length, Nat.sub_self]
        rfl
      · rw [ruReplacePhase,
          List.getElem?_append_right (by rw [ruReplacePhase_length]; omega),
          ruReplacePhase_length, show 2 * i + 1 - 2 * i = 1 by omega]
        rfl

/-- Counterexample to the C3 wording that a failing restart wait does not
cancel the other workers' waits: with two workers whose first wait fails,
worker 1's restart wait never happens — only the first failure surfaces. -/
theorem C3_concurrent_waits_counterexample :
    (K8sPod.rolling_update (fun _ => [])
        2 (fun i _ => if i = 0 then WaitOutcome.failure "boom" else WaitOutcome.success)).1 =
      PodResult.failed "boom" ∧
    RUEvent.waitRestart 1 [] ∉
      (K8sPod.rolling_update (fun _ => [])
        2 (fun i _ => if i = 0 then WaitOutcome.failure "boom" else WaitOutcome.success)).2 := by
  decide

/-- Claim C3 (amended): during the pod controller's rolling update each
worker's UID snapshot is captured immediately before its replace (events
`2 i` and `2 i + 1`), every replace precedes every restart wait, and the
restart waits then run sequentially in shard order with each worker's own
snapshot: when all succeed every worker is awaited, and the first failing
worker's message surfaces with no later worker's wait awaited. -/
theorem C3_rolling_update_sequential (g : Nat → List String) (n : Nat)
    (w : Nat → List String → WaitOutcome) :
    (∀ i, i < n →
       ((K8sPod.rolling_update g n w).2)[2 * i]? = some (RUEvent.captureUids i (g i)) ∧
       ((K8sPod.rolling_update g n w).2)[2 * i + 1]? = some (RUEvent.replace i)) ∧
    (∃ ws, (K8sPod.rolling_update g n w).2 = ruReplacePhase g n ++ ws ∧
       ∀ e ∈ ws, ∃ i, i ∈ List.range n ∧ e = RUEvent.waitRestart i (g i)) ∧
    ((∀ i, i < n → w i (g i) = WaitOutcome.success) →
       K8sPod.rolling_update g n w =
         (PodResult.ok,
          ruReplacePhase g n ++ (List.range n).map (fun i => RUEvent.waitRestart i (g i)))) ∧
    (∀ i m, i < n → (∀ j, j < i → w j (g j) = WaitOutcome.success) →
       w i (g i) = WaitOutcome.failure m →
       K8sPod.rolling_update g n w =
         (PodResult.failed m,
          ruReplacePhase g n ++
            ((List.range i).map (fun j => RUEvent.waitRestart j (g j)) ++
              [RUEvent.waitRestart i (g i)]))) := by
  have hevs : (K8sPod.rolling_update g n w).2 =
      ruReplacePhase g n ++ (ruWaitPhase g w (List.range n)).2 := rfl
  refine ⟨?_, ?_, ?_, ?_⟩
  · intro i hi
    obtain ⟨h1, h2⟩ := ruReplacePhase_getElem g n i hi
    have hl1 : 2 * i < (ruReplacePhase g n).length := by
      rw [ruReplacePhase_length]; omega
    have hl2 : 2 * i + 1 < (ruReplacePhase g n).length := by
      rw [ruReplacePhase_length]; omega
    rw [hevs]
    exact ⟨by rw [List.getElem?_append, if_pos hl1]; exact h1,
           by rw [List.getElem?_append, if_pos hl2]; exact h2⟩
  · exact ⟨(ruWaitPhase g w (List.range n)).2, hevs, ruWaitPhase_mem g w (List.range n)⟩
  · intro hall
    have hw := ruWaitPhase_all_success g w (List.range n)
      (fun i hi => hall i (List.mem_range.mp hi))
    simp [K8sPod.rolling_update, hw]
  · intro i m hi hprev hfail
    have hw := ruWaitPhase_first_fail g w (List.range i) i (List.range' (i + 1) (n - i - 1))
      m (fun j hj => hprev j (List.mem_range.mp hj)) hfail
    rw [← range_split i n hi] at hw
    simp [K8sPod.rolling_update, hw]

/-- Witness for C3 (amended): with two workers whose restart waits both
succeed, the trace is the two capture-replace pairs followed by both
restart waits, in order, and the result is success. -/
theorem C3_rolling_update_sequential_witness :
    K8sPod.rolling_update (fun i => ["u" ++ toString i]) 2 (fun _ _ => WaitOutcome.success) =
      (PodResult.ok,
       ruReplacePhase (fun i => ["u" ++ toString i]) 2 ++
         (List.range 2).map
           (fun i => RUEvent.waitRestart i ["u" ++ toString i])) :=
  (C3_rolling_update_sequential (fun i => ["u" ++ toString i]) 2
    (fun _ _ => WaitOutcome.success)).2.2.1 (fun _ _ => rfl)

/-- For a non-gateway pod the partitioner always returns: one head
namespace and one worker namespace per shard. -/
theorem parse_nongateway (args : PodArgs) (hg : args.name ≠ "gateway") :
    K8sPod._parse_deployment_args args =
      some { head_deployment := some (headDeploymentFor args),
             deployments := workerDeploymentsFor args } := by
  rcases hcp : args.k8s_connection_pool with _ | _ <;>
    rcases hb : args.uses_before with _ | vb <;>
      rcases ha : args.uses_after with _ | va <;>
        simp [K8sPod._parse_deployment_args, headDeploymentFor, workerDeploymentsFor,
          hg, hcp, hb, ha]

/-- Counterexample to C4 as stated: a gateway pod configured with two
shards is partitioned into two worker namespaces, not exactly one (the
head slot is still empty). -/
theorem C4_gateway_single_worker_counterexample :
    (K8sPod._parse_deployment_args
        { name := "gateway", shards := 2, replicas := 1, uses_before := none,
          uses_after := none, k8s_connection_pool := true, k8s_namespace := "ns",
          runtime_cls := "WorkerRuntime", pea_role := PeaRoleType.SINGLETON,
          port_in := 0, shard_id := none, connection_list := none,
          uses_before_address := none, uses_after_address := none }).map
      (fun r => (r.head_deployment, r.deployments.length)) = some (none, 2) ∧
    (2 : Nat) ≠ 1 := by
  decide

/-- Claim C4 (amended): partitioning a gateway pod (without pre/post
executors) yields no head namespace and exactly one gateway-role worker
namespace per configured shard — exactly one worker only when the
configured shard count is 1. -/
theorem C4_gateway_partition (args : PodArgs) (hg : args.name = "gateway")
    (hb : args.uses_before = none) (ha : args.uses_after = none) :
    ∃ r, K8sPod._parse_deployment_args args = some r ∧
      r.head_deployment = none ∧
      r.deployments.length = args.shards ∧
      ∀ d ∈ r.deployments, d.pea_role = PeaRoleType.GATEWAY := by
  refine ⟨{ head_deployment := none, deployments := workerDeploymentsFor args },
    ?_, rfl, by simp [workerDeploymentsFor], ?_⟩
  · simp [K8sPod._parse_deployment_args, workerDeploymentsFor, hg, hb, ha]
  · intro d hd
    simp only [workerDeploymentsFor, List.mem_map] at hd
    obtain ⟨i, _, rfl⟩ := hd
    simp [hg]

/-- Witness for C4 (amended), at a gateway pod with two shards. -/
theorem C4_gateway_partition_witness :
    ∃ r, K8sPod._parse_deployment_args
        { name := "gateway", shards := 2, replicas := 1, uses_before := none,
          uses_after := none, k8s_connection_pool := true, k8s_namespace := "ns",
          runtime_cls := "WorkerRuntime", pea_role := PeaRoleType.SINGLETON,
          port_in := 0, shard_id := none, connection_list := none,
          uses_before_address := none, uses_after_address := none } = some r ∧
      r.head_deployment = none ∧ r.deployments.length = 2 ∧
      ∀ d ∈ r.deployments, d.pea_role = PeaRoleType.GATEWAY :=
  C4_gateway_partition _ rfl rfl rfl

/-- Claim C5: for every shard count `s ≥ 1`, partitioning a non-gateway
pod yields exactly `s` worker namespaces carrying the shard indices
`0..s-1` in order, each exactly once, and exactly one head namespace with
replicas forced to 1 and role `HEAD`. -/
theorem C5_nongateway_partition (args : PodArgs) (hg : args.name ≠ "gateway")
    (hs : 1 ≤ args.shards) :
    ∃ r h, K8sPod._parse_deployment_args args = some r ∧
      r.head_deployment = some h ∧
      h.replicas = 1 ∧ h.pea_role = PeaRoleType.HEAD ∧
      r.deployments.length = args.shards ∧
      r.deployments.map (fun d => d.shard_id) =
        (List.range args.shards).map (fun i => some i) := by
  refine ⟨_, headDeploymentFor args, parse_nongateway args hg, rfl, ?_, ?_, ?_, ?_⟩
  · simp only [headDeploymentFor]
    split_ifs <;> rfl
  · simp only [headDeploymentFor]
    split_ifs <;> rfl
  · simp [workerDeploymentsFor]
  · simp [workerDeploymentsFor, List.map_map, Function.comp]

/-- Witness for C5 at pod `enc` with two shards and three replicas. -/
theorem C5_nongateway_partition_witness :
    ∃ r h, K8sPod._parse_deployment_args encArgsEx = some r ∧
      r.head_deployment = some h ∧
      h.replicas = 1 ∧ h.pea_role = PeaRoleType.HEAD ∧
      r.deployments.length = encArgsEx.shards ∧
      r.deployments.map (fun d => d.shard_id) =
        (List.range encArgsEx.shards).map (fun i => some i) :=
  C5_nongateway_partition encArgsEx (by decide) (by decide)

/-- Claim C6: with the managed connection pool disabled, a non-gateway
pod's head namespace carries the static address table mapping each shard
index to its worker address; for pod `enc` with two shards in namespace
`ns` the table is exactly the two-entry table of the claim, with the
head-in port. -/
theorem C6_connection_list (args : PodArgs) (hg : args.name ≠ "gateway")
    (hp : args.k8s_connection_pool = false) :
    (∃ r h, K8sPod._parse_deployment_args args = some r ∧
       r.head_deployment = some h ∧
       h.connection_list =
         some (K8sPod.buildConnectionList args.name args.k8s_namespace args.shards)) ∧
    K8sPod.buildConnectionList "enc" "ns" 2 =
      "\x7b\x220\x22: \x22enc-0.ns.svc:" ++ toString K8S_PORT_IN ++
        "\x22,\x221\x22: \x22enc-1.ns.svc:" ++ toString K8S_PORT_IN ++ "\x22\x7d" := by
  constructor
  · refine ⟨_, headDeploymentFor args, parse_nongateway args hg, rfl, ?_⟩
    simp only [headDeploymentFor, hp, Bool.not_false, if_true]
    split_ifs <;> rfl
  · decide

/-- Witness for C6 at pod `enc` with two shards, pool disabled. -/
theorem C6_connection_list_witness :
    (∃ r h, K8sPod._parse_deployment_args encArgsEx = some r ∧
       r.head_deployment = some h ∧
       h.connection_list =
         some (K8sPod.buildConnectionList encArgsEx.name encArgsEx.k8s_namespace
           encArgsEx.shards)) ∧
    K8sPod.buildConnectionList "enc" "ns" 2 =
      "\x7b\x220\x22: \x22enc-0.ns.svc:" ++ toString K8S_PORT_IN ++
        "\x22,\x221\x22: \x22enc-1.ns.svc:" ++ toString K8S_PORT_IN ++ "\x22\x7d" :=
  C6_connection_list encArgsEx (by decide) rfl

/-- Claim C9: partitioning a gateway pod that nevertheless configures a
uses-before or uses-after executor does not return a result: the head
slot is `None` and assigning the loopback sidecar address to it fails
(an `AttributeError` in the source), so the partitioner is partial
there. -/
theorem C9_gateway_uses_partial (args : PodArgs) (hg : args.name = "gateway")
    (hu : args.uses_before.isSome ∨ args.uses_after.isSome) :
    K8sPod._parse_deployment_args args = none := by
  rcases hb : args.uses_before with _ | vb <;>
    rcases ha : args.uses_after with _ | va <;>
      simp [hb, ha] at hu ⊢ <;>
        simp [K8sPod._parse_deployment_args, hg, hb, ha]

/-- Witness for C9: the gateway pod with a configured uses-before
executor is rejected. -/
theorem C9_gateway_uses_partial_witness :
    K8sPod._parse_deployment_args
      { name := "gateway", shards := 2, replicas := 1, uses_before := some "exec",
        uses_after := none, k8s_connection_pool := true, k8s_namespace := "ns",
        runtime_cls := "WorkerRuntime", pea_role := PeaRoleType.SINGLETON,
        port_in := 0, shard_id := none, connection_list := none,
        uses_before_address := none, uses_after_address := none } = none :=
  C9_gateway_uses_partial _ rfl (Or.inl rfl)

/-- The scale wait phase never changes a recorded replica count at a
position it does not visit. -/
theorem scaleWaitPhase_not_mem (target : Nat) (w : Nat → WaitOutcome) (idx : List Nat)
    (reps : List Nat) (p : Nat) (hp : p ∉ idx) :
    (scaleWaitPhase target w idx reps).2.2[p]? = reps[p]? := by
  induction idx generalizing reps with
  | nil => rfl
  | cons i rest ih =>
    have hpi : p ≠ i := fun h => hp (h ▸ List.mem_cons_self i rest)
    have hprest : p ∉ rest := fun h => hp (List.mem_cons_of_mem _ h)
    cases hw : w i with
    | success =>
      simp only [scaleWaitPhase, hw]
      rw [ih _ hprest, List.getElem?_set_ne (Ne.symm hpi)]
    | failure m => simp [scaleWaitPhase, hw]

/-- A worker whose scale wait fails keeps its previously recorded replica
count. -/
theorem scaleWaitPhase_fail_unchanged (target : Nat) (w : Nat → WaitOutcome)
    (idx : List Nat) (reps : List Nat) (i : Nat) (m : String)
    (hfail : w i = WaitOutcome.failure m) :
    (scaleWaitPhase target w idx reps).2.2[i]? = reps[i]? := by
  induction idx generalizing reps with
  | nil => rfl
  | cons j rest ih =>
    cases hw : w j with
    | success =>
      have hji : j ≠ i := by
        intro h
        subst h
        rw [hfail] at hw
        exact WaitOutcome.noConfusion hw
      simp only [scaleWaitPhase, hw]
      rw [ih (reps.set j target), List.getElem?_set_ne hji]
    | failure m2 => simp [scaleWaitPhase, hw]

/-- When every listed worker's scale wait succeeds, the wait phase reports
no failure, awaits each worker in order, and records the target replica
count for each of them. -/
theorem scaleWaitPhase_all_success (target : Nat) (w : Nat → WaitOutcome)
    (idx : List Nat) (reps : List Nat) (hnd : idx.Nodup)
    (hall : ∀ i ∈ idx, w i = WaitOutcome.success) :
    (scaleWaitPhase target w idx reps).1 = none ∧
    (scaleWaitPhase target w idx reps).2.1 =
      idx.map (fun i => ScaleEvent.waitScaled (HandleId.worker i)) ∧
    ∀ i ∈ idx, i < reps.length →
      (scaleWaitPhase target w idx reps).2.2[i]? = some target := by
  induction idx generalizing reps with
  | nil => exact ⟨rfl, rfl, by simp⟩
  | cons j rest ih =>
    have hj : w j = WaitOutcome.success := hall j (List.mem_cons_self _ _)
    obtain ⟨hjr, hndrest⟩ := List.nodup_cons.mp hnd
    obtain ⟨ih1, ih2, ih3⟩ :=
      ih (reps.set j target) hndrest (fun k hk => hall k (List.mem_cons_of_mem _ hk))
    refine ⟨?_, ?_, ?_⟩
    · simp only [scaleWaitPhase, hj]
      exact ih1
    · simp only [scaleWaitPhase, hj, List.map_cons]
      rw [ih2]
    · intro i hi hlen
      simp only [scaleWaitPhase, hj]
      rcases List.mem_cons.mp hi with rfl | hi2
      · rw [scaleWaitPhase_not_mem target w rest _ i hjr, List.getElem?_set_self hlen]
      · exact ih3 i hi2 (by rw [List.length_set]; exact hlen)

/-- Every event the scale wait phase emits is a scale wait of a listed
worker. -/
theorem scaleWaitPhase_events (target : Nat) (w : Nat → WaitOutcome) (idx : List Nat)
    (reps : List Nat) :
    ∀ e ∈ (scaleWaitPhase target w idx reps).2.1,
      ∃ i, i ∈ idx ∧ e = ScaleEvent.waitScaled (HandleId.worker i) := by
  induction idx generalizing reps with
  | nil => simp [scaleWaitPhase]
  | cons i rest ih =>
    intro e he
    cases hw : w i with
    | success =>
      simp only [scaleWaitPhase, hw] at he
      rcases List.mem_cons.mp he with he | he
      · exact ⟨i, List.mem_cons_self _ _, he⟩
      · obtain ⟨j, hj, hje⟩ := ih _ e he
        exact ⟨j, List.mem_cons_of_mem _ hj, hje⟩
    | failure m =>
      simp only [scaleWaitPhase, hw, List.mem_singleton] at he
      exact ⟨i, List.mem_cons_self _ _, he⟩

/-- Claim C7: pod-level scale issues the scale patch on every worker
handle before any wait begins, every event involves only worker handles
(the head handle is never touched and its recorded replica count is
unchanged), a worker whose wait fails keeps its old recorded count, and
when all waits succeed every worker is awaited and records the target. -/
theorem C7_scale_fanout (st : PodReplicaState) (target : Nat) (w : Nat → WaitOutcome) :
    (∃ ws, (K8sPod.scale st target w).2.1 =
        (List.range st.worker_num_replicas.length).map
          (fun i => ScaleEvent.scaleCall (HandleId.worker i)) ++ ws ∧
      ∀ e ∈ ws, ∃ i, i ∈ List.range st.worker_num_replicas.length ∧
        e = ScaleEvent.waitScaled (HandleId.worker i)) ∧
    (K8sPod.scale st target w).2.2.head_num_replicas = st.head_num_replicas ∧
    (∀ e ∈ (K8sPod.scale st target w).2.1, ∃ i,
       e = ScaleEvent.scaleCall (HandleId.worker i) ∨
       e = ScaleEvent.waitScaled (HandleId.worker i)) ∧
    (∀ i m, w i = WaitOutcome.failure m →
       (K8sPod.scale st target w).2.2.worker_num_replicas[i]? =
         st.worker_num_replicas[i]?) ∧
    ((∀ i, i < st.worker_num_replicas.length → w i = WaitOutcome.success) →
       (K8sPod.scale st target w).1 = PodResult.ok ∧
       ∀ i, i < st.worker_num_replicas.length →
         ScaleEvent.waitScaled (HandleId.worker i) ∈ (K8sPod.scale st target w).2.1 ∧
         (K8sPod.scale st target w).2.2.worker_num_replicas[i]? = some target) := by
  have hevs : (K8sPod.scale st target w).2.1 =
      (List.range st.worker_num_replicas.length).map
        (fun i => ScaleEvent.scaleCall (HandleId.worker i)) ++
      (scaleWaitPhase target w (List.range st.worker_num_replicas.length)
        st.worker_num_replicas).2.1 := rfl
  have hreps : (K8sPod.scale st target w).2.2.worker_num_replicas =
      (scaleWaitPhase target w (List.range st.worker_num_replicas.length)
        st.worker_num_replicas).2.2 := rfl
  refine ⟨?_, rfl, ?_, ?_, ?_⟩
  · exact ⟨_, hevs, scaleWaitPhase_events target w _ _⟩
  · intro e he
    rw [hevs] at he
    rcases List.mem_append.mp he with he | he
    · obtain ⟨i, _, rfl⟩ := List.mem_map.mp he
      exact ⟨i, Or.inl rfl⟩
    · obtain ⟨i, _, rfl⟩ := scaleWaitPhase_events target w _ _ e he
      exact ⟨i, Or.inr rfl⟩
  · intro i m hfail
    rw [hreps, scaleWaitPhase_fail_unchanged target w _ _ i m hfail]
  · intro hall
    obtain ⟨h1, h2, h3⟩ := scaleWaitPhase_all_success target w
      (List.range st.worker_num_replicas.length) st.worker_num_replicas
      (List.nodup_range _) (fun i hi => hall i (List.mem_range.mp hi))
    constructor
    · simp [K8sPod.scale, h1]
    · intro i hi
      constructor
      · rw [hevs, h2]
        exact List.mem_append_right _
          (List.mem_map_of_mem _ (List.mem_range.mpr hi))
      · rw [hreps]
        exact h3 i (List.mem_range.mpr hi) hi

/-- Witness for C7: a pod with a head recording one replica and two
workers recording three each, scaled to five with all waits succeeding:
the head count is untouched, the result is success, and worker 0 records
the target. -/
theorem C7_scale_fanout_witness :
    (K8sPod.scale ⟨some 1, [3, 3]⟩ 5 (fun _ => WaitOutcome.success)).2.2.head_num_replicas =
      some 1 ∧
    (K8sPod.scale ⟨some 1, [3, 3]⟩ 5 (fun _ => WaitOutcome.success)).1 = PodResult.ok ∧
    (K8sPod.scale ⟨some 1, [3, 3]⟩ 5
        (fun _ => WaitOutcome.success)).2.2.worker_num_replicas[0]? = some 5 :=
  ⟨(C7_scale_fanout ⟨some 1, [3, 3]⟩ 5 (fun _ => WaitOutcome.success)).2.1,
   ((C7_scale_fanout ⟨some 1, [3, 3]⟩ 5 (fun _ => WaitOutcome.success)).2.2.2.2
      (fun _ _ => rfl)).1,
   (((C7_scale_fanout ⟨some 1, [3, 3]⟩ 5 (fun _ => WaitOutcome.success)).2.2.2.2
      (fun _ _ => rfl)).2 0 (by decide)).2⟩

/-- Witness for C8 (amended), at deployment `d` with timeout 2000 and
desired count 3: the empty trace raises the timeout failure and an API
error raises the wrapped failure regardless of the remaining trace. -/
theorem C8_wait_failure_classification_witness :
    _K8sDeployment.wait_start_success "d" 2000 3 [] =
      WaitOutcome.failure (_K8sDeployment.startFailMsg "d" 2000 none) ∧
    _K8sDeployment.wait_start_success "d" 2000 3
        [PollResult.apiError "err", PollResult.obs ⟨some 3, some 3, some 3⟩] =
      WaitOutcome.failure (_K8sDeployment.startFailMsg "d" 2000 (some "err")) :=
  ⟨(C8_wait_failure_classification "d" 2000 3 2 [] "err").1,
   (C8_wait_failure_classification "d" 2000 3 2 [] "err").2.2.2.1
     [PollResult.obs ⟨some 3, some 3, some 3⟩]⟩

/-- Witness for C10, at a pod with a head and two workers. -/
theorem C10_wait_start_value_error_witness :
    K8sPod.wait_start_success false true 2 waitResEx =
      (PodResult.valueError
        "wait_start_success should only be called when noblock_on_start is set to True",
       []) :=
  C10_wait_start_value_error true 2 waitResEx
